import Mathlib

/-!
Verification of the meta-server bulk-load service
(`src/dist/replication/meta_server/meta_bulk_load_service.h`).

The repository ships the class declaration together with its inline helper
functions; the out-of-line member bodies (the `.cpp` translation unit) are not
part of the sources.  Wherever a definition below embeds one of those missing
bodies it is modelled from the specification and its doc comment says so
explicitly; everything else is translated directly from the header.
-/

namespace RDSN

/-- Bulk-load status enumeration (`bulk_load_status::type`).  The thrift
definition is not among the sources; the constructors follow the fixed
enumeration given by the specification, with `BLS_INVALID` the
default/not-start value returned for untracked ids by the header's inline
query helpers. -/
inductive BulkLoadStatus where
  | BLS_INVALID
  | BLS_DOWNLOADING
  | BLS_DOWNLOADED
  | BLS_INGESTING
  | BLS_SUCCEED
  | BLS_FAILED
  | BLS_PAUSING
  | BLS_PAUSED
  | BLS_CANCELED
  deriving DecidableEq, Repr

/-- Global partition id (`dsn::gpid`): an application id and a partition
index, both 32-bit integers in the source. -/
structure Gpid where
  app_id : Int
  partition_index : Int
  deriving DecidableEq, Repr

/-- `app_bulk_load_info` (header lines 18-28): the per-application record kept
on the coordination store. -/
structure AppBulkLoadInfo where
  app_id : Int
  partition_count : Int
  app_name : String
  cluster_name : String
  file_provider_type : String
  status : BulkLoadStatus
  deriving DecidableEq, Repr

/-- File metadata of one remote file (`file_meta`: name, size, checksum). -/
structure FileMeta where
  name : String
  size : Nat
  md5 : String
  deriving DecidableEq, Repr

/-- `bulk_load_metadata`: the set of remote file descriptors of a partition. -/
structure BulkLoadMetadata where
  files : List FileMeta
  file_total_size : Nat
  deriving DecidableEq, Repr

/-- `partition_bulk_load_info` (header lines 30-35). -/
structure PartitionBulkLoadInfo where
  status : BulkLoadStatus
  metadata : BulkLoadMetadata
  deriving DecidableEq, Repr

/-- `bulk_load_info` (header lines 38-44): the record stored by the file
provider, carrying exactly `app_id`, `app_name` and `partition_count`. -/
structure BulkLoadInfo where
  app_id : Int
  app_name : String
  partition_count : Int
  deriving DecidableEq, Repr

/-- `bulk_load_constant::BULK_LOAD_INFO`.  Modelled from the spec: the
constant's definition is not among the sources; the spec's provider layout
names the file `bulk_load_info`. -/
def BULK_LOAD_INFO : String := "bulk_load_info"

/-- `get_bulk_load_info_path` (header lines 227-234):
`<bulk_load_provider_root>/<cluster_name>/<app_name>/bulk_load_info`, built by
`ostringstream` insertion. -/
def get_bulk_load_info_path (provider_root cluster_name app_name : String) :
    String :=
  provider_root ++ "/" ++ cluster_name ++ "/" ++ app_name ++ "/" ++
    BULK_LOAD_INFO

/-- `get_app_bulk_load_path` (header lines 238-243):
`<_bulk_load_root>/<app_id>`, the app id rendered in decimal by
`stringstream` insertion. -/
def get_app_bulk_load_path (bulk_load_root : String) (app_id : Int) : String :=
  bulk_load_root ++ "/" ++ toString app_id

/-- `get_partition_bulk_load_path` two-argument overload (header lines
247-253): `<app_bulk_load_path>/<partition_id>`. -/
def get_partition_bulk_load_path (app_bulk_load_path : String)
    (partition_id : Int) : String :=
  app_bulk_load_path ++ "/" ++ toString partition_id

/-- `get_partition_bulk_load_path` gpid overload (header lines 255-260):
`get_app_bulk_load_path(pid.get_app_id()) << "/" << pid.get_partition_index()`. -/
def get_partition_bulk_load_path_of_pid (bulk_load_root : String)
    (pid : Gpid) : String :=
  get_app_bulk_load_path bulk_load_root pid.app_id ++ "/" ++
    toString pid.partition_index

/-- Lookup in an association list, mirroring `std::unordered_map::find`:
the first binding of the key, if any. -/
def map_find {κ α : Type} [DecidableEq κ] (k : κ) :
    List (κ × α) → Option α
  | [] => none
  | (k', v) :: rest => if k' = k then some v else map_find k rest

/-- The in-memory bulk-load state of the service (header lines 318-338):
the coordination root and the shared maps relevant to the status queries. -/
structure BulkLoadServiceState where
  bulk_load_root : String
  bulk_load_app_id : List Int
  app_bulk_load_info : List (Int × AppBulkLoadInfo)
  partition_bulk_load_info : List (Gpid × PartitionBulkLoadInfo)
  partitions_total_download_progress : List (Gpid × Int)

/-- `get_partition_bulk_load_status_unlocked` (header lines 278-286): the
stored status if the gpid is tracked, `BLS_INVALID` otherwise. -/
def get_partition_bulk_load_status_unlocked (s : BulkLoadServiceState)
    (pid : Gpid) : BulkLoadStatus :=
  match map_find pid s.partition_bulk_load_info with
  | some info => info.status
  | none => BulkLoadStatus.BLS_INVALID

/-- `get_app_bulk_load_status_unlocked` (header lines 294-302): the stored
status if the app id is tracked, `BLS_INVALID` otherwise. -/
def get_app_bulk_load_status_unlocked (s : BulkLoadServiceState)
    (app_id : Int) : BulkLoadStatus :=
  match map_find app_id s.app_bulk_load_info with
  | some info => info.status
  | none => BulkLoadStatus.BLS_INVALID

/-- `is_partition_metadata_not_updated_unlocked` (header lines 268-276). -/
def is_partition_metadata_not_updated_unlocked (s : BulkLoadServiceState)
    (pid : Gpid) : Bool :=
  match map_find pid s.partition_bulk_load_info with
  | some info =>
      decide (info.metadata.files.length = 0 ∧ info.metadata.file_total_size = 0)
  | none => false

/-- The spec draws every stored status from the workflow enumeration; the
value `BLS_INVALID` is the untracked default, never a stored status.  This
well-formedness predicate records that invariant for the two status maps. -/
def stored_statuses_valid (s : BulkLoadServiceState) : Prop :=
  (∀ p ∈ s.app_bulk_load_info, p.2.status ≠ BulkLoadStatus.BLS_INVALID) ∧
  (∀ q ∈ s.partition_bulk_load_info, q.2.status ≠ BulkLoadStatus.BLS_INVALID)

instance (s : BulkLoadServiceState) : Decidable (stored_statuses_valid s) := by
  unfold stored_statuses_valid
  exact inferInstance

theorem map_find_mem {κ α : Type} [DecidableEq κ] {k : κ} {v : α} :
    ∀ {l : List (κ × α)}, map_find k l = some v → (k, v) ∈ l := by
  intro l
  induction l with
  | nil => intro h; simp [map_find] at h
  | cons p rest ih =>
    intro h
    rw [map_find] at h
    by_cases hk : p.1 = k
    · rw [if_pos hk] at h
      injection h with h
      subst h
      rw [← hk]
      exact List.mem_cons_self p rest
    · rw [if_neg hk] at h
      exact List.mem_cons_of_mem p (ih h)

/-- Claim C7: the coordination-store path of an app record is the bulk-load
root followed by "/" and the decimal rendering of the app id, and the path of
partition i of that app is the app record's path followed by "/" and the
decimal rendering of i. -/
theorem c7_bulk_load_paths (root : String) (a i : Int) :
    get_app_bulk_load_path root a = root ++ "/" ++ toString a ∧
    get_partition_bulk_load_path (get_app_bulk_load_path root a) i =
      get_app_bulk_load_path root a ++ "/" ++ toString i := by
  exact ⟨rfl, rfl⟩

/-- Claim C10: the gpid overload of `get_partition_bulk_load_path` agrees with
the two-argument overload applied to `get_app_bulk_load_path` of the gpid's
app id and the gpid's partition index. -/
theorem c10_partition_path_overloads_agree (root : String) (pid : Gpid) :
    get_partition_bulk_load_path_of_pid root pid =
      get_partition_bulk_load_path (get_app_bulk_load_path root pid.app_id)
        pid.partition_index := by
  rfl

/-- Claim C8: the file-provider path read at start is the provider root
followed by "/" cluster "/" app "/bulk_load_info", and the `bulk_load_info`
record stored there is determined by exactly the fields `app_id`, `app_name`
and `partition_count`. -/
theorem c8_bulk_load_info_path_and_fields
    (provider_root cluster_name app_name : String) :
    get_bulk_load_info_path provider_root cluster_name app_name =
      provider_root ++ "/" ++ cluster_name ++ "/" ++ app_name ++
        "/bulk_load_info" ∧
    ∀ r s : BulkLoadInfo, r.app_id = s.app_id → r.app_name = s.app_name →
      r.partition_count = s.partition_count → r = s := by
  constructor
  · simp [get_bulk_load_info_path, BULK_LOAD_INFO, String.append_assoc]
  · intro r s h1 h2 h3
    cases r
    cases s
    simp_all

theorem c8_bulk_load_info_path_and_fields_witness :
    get_bulk_load_info_path "/providers/hdfs" "onebox" "temp" =
      "/providers/hdfs/onebox/temp/bulk_load_info" ∧
    (⟨2, "temp", 8⟩ : BulkLoadInfo) = ⟨2, "temp", 8⟩ := by
  refine ⟨(c8_bulk_load_info_path_and_fields "/providers/hdfs" "onebox" "temp").1, ?_⟩
  exact (c8_bulk_load_info_path_and_fields "/providers/hdfs" "onebox" "temp").2
    ⟨2, "temp", 8⟩ ⟨2, "temp", 8⟩ rfl rfl rfl

/-- Claim C9: for ids absent from the in-memory maps the status queries
return `BLS_INVALID` instead of failing; they are total functions yielding
`BLS_INVALID` exactly for untracked ids (stored statuses are drawn from the
workflow enumeration, never `BLS_INVALID`). -/
theorem c9_status_queries_total (s : BulkLoadServiceState) (a : Int)
    (pid : Gpid) (hwf : stored_statuses_valid s) :
    (get_app_bulk_load_status_unlocked s a = BulkLoadStatus.BLS_INVALID ↔
      map_find a s.app_bulk_load_info = none) ∧
    (get_partition_bulk_load_status_unlocked s pid =
        BulkLoadStatus.BLS_INVALID ↔
      map_find pid s.partition_bulk_load_info = none) := by
  constructor
  · rw [get_app_bulk_load_status_unlocked]
    cases h : map_find a s.app_bulk_load_info with
    | none => simp
    | some info =>
      simp only [reduceCtorEq, iff_false]
      exact hwf.1 (a, info) (map_find_mem h)
  · rw [get_partition_bulk_load_status_unlocked]
    cases h : map_find pid s.partition_bulk_load_info with
    | none => simp
    | some info =>
      simp only [reduceCtorEq, iff_false]
      exact hwf.2 (pid, info) (map_find_mem h)

theorem c9_status_queries_total_witness :
    (get_app_bulk_load_status_unlocked
        ⟨"/bulk_load", [2], [(2, ⟨2, 4, "temp", "onebox", "hdfs",
          BulkLoadStatus.BLS_DOWNLOADING⟩)],
          [(⟨2, 0⟩, ⟨BulkLoadStatus.BLS_DOWNLOADING, ⟨[], 0⟩⟩)], []⟩ 7 =
        BulkLoadStatus.BLS_INVALID ↔
      map_find 7 [(2, (⟨2, 4, "temp", "onebox", "hdfs",
          BulkLoadStatus.BLS_DOWNLOADING⟩ : AppBulkLoadInfo))] = none) := by
  exact (c9_status_queries_total
    ⟨"/bulk_load", [2], [(2, ⟨2, 4, "temp", "onebox", "hdfs",
      BulkLoadStatus.BLS_DOWNLOADING⟩)],
      [(⟨2, 0⟩, ⟨BulkLoadStatus.BLS_DOWNLOADING, ⟨[], 0⟩⟩)], []⟩ 7 ⟨2, 0⟩
    (by constructor <;> simp [stored_statuses_valid])).1

/-- `bulk_load_constant::PROGRESS_FINISHED`: full download completion,
expressed as the percentage 100. -/
def PROGRESS_FINISHED : Nat := 100

/-- Modelled from the spec: the body of `handle_app_downloading` and the
progress aggregation feeding `_partitions_total_download_progress` are not
among the sources (only their declarations are).  Per the spec, the tracker
aggregates the replica-set progress of a partition as the minimum reported
percentage across the tracked replicas. -/
def partition_total_download_progress (reports : List Nat) : Nat :=
  match reports with
  | [] => 0
  | r :: rs => rs.foldl Nat.min r

/-- Modelled from the spec: the partition-status transition performed by
`handle_app_downloading` — the partition moves from `downloading` to
`downloaded` exactly when the aggregated download progress of its tracked
replicas reaches `PROGRESS_FINISHED`. -/
def handle_app_downloading_partition_status (cur : BulkLoadStatus)
    (reports : List Nat) : BulkLoadStatus :=
  match reports with
  | [] => cur
  | r :: rs =>
      if partition_total_download_progress (r :: rs) = PROGRESS_FINISHED then
        BulkLoadStatus.BLS_DOWNLOADED
      else cur

theorem foldl_min_mem :
    ∀ (rs : List Nat) (r : Nat), rs.foldl Nat.min r ∈ r :: rs := by
  intro rs
  induction rs with
  | nil => intro r; simp
  | cons a as ih =>
    intro r
    rw [List.foldl_cons]
    rcases List.mem_cons.mp (ih (Nat.min r a)) with h | h
    · rw [h]
      rcases Nat.le_total r a with hle | hle
      · simp [Nat.min_eq_left hle]
      · simp [Nat.min_eq_right hle]
    · simp [h]

theorem foldl_min_le :
    ∀ (rs : List Nat) (r : Nat), ∀ x ∈ r :: rs, rs.foldl Nat.min r ≤ x := by
  intro rs
  induction rs with
  | nil =>
    intro r x hx
    rcases List.mem_cons.mp hx with h | h
    · rw [h]; simp
    · simp at h
  | cons a as ih =>
    intro r x hx
    rw [List.foldl_cons]
    rcases List.mem_cons.mp hx with h | h
    · rw [h]
      exact le_trans (ih (Nat.min r a) _ (List.mem_cons_self _ _))
        (Nat.min_le_left r a)
    · rcases List.mem_cons.mp h with h1 | h1
      · rw [h1]
        exact le_trans (ih (Nat.min r a) _ (List.mem_cons_self _ _))
          (Nat.min_le_right r a)
      · exact ih (Nat.min r a) x (List.mem_cons_of_mem _ h1)

/-- Claim C1: a partition becomes `downloaded` only when every tracked
replica reports full completion, and the per-partition aggregate gating the
transition is the minimum reported percentage across the tracked replicas
(a member of the reports that bounds all of them from below), not the
average. -/
theorem c1_download_gate_is_min (reports : List Nat)
    (hne : reports ≠ []) (hbound : ∀ r ∈ reports, r ≤ 100) :
    (handle_app_downloading_partition_status BulkLoadStatus.BLS_DOWNLOADING
        reports = BulkLoadStatus.BLS_DOWNLOADED ↔
      ∀ r ∈ reports, r = 100) ∧
    partition_total_download_progress reports ∈ reports ∧
    ∀ r ∈ reports, partition_total_download_progress reports ≤ r := by
  match reports with
  | [] => exact absurd rfl hne
  | r :: rs =>
    have hmem : partition_total_download_progress (r :: rs) ∈ r :: rs :=
      foldl_min_mem rs r
    have hle : ∀ x ∈ r :: rs, partition_total_download_progress (r :: rs) ≤ x :=
      foldl_min_le rs r
    refine ⟨?_, hmem, hle⟩
    rw [handle_app_downloading_partition_status]
    constructor
    · intro hgate x hx
      by_cases hcond :
          partition_total_download_progress (r :: rs) = PROGRESS_FINISHED
      · have hge := hle x hx
        rw [hcond] at hge
        exact le_antisymm (hbound x hx) hge
      · rw [if_neg hcond] at hgate
        exact absurd hgate (by decide)
    · intro hall
      have : partition_total_download_progress (r :: rs) = PROGRESS_FINISHED :=
        hall _ hmem
      rw [if_pos this]

theorem c1_download_gate_is_min_witness :
    partition_total_download_progress [100, 60, 80] ∈ [100, 60, 80] ∧
    partition_total_download_progress [100, 60, 80] ≤ 60 ∧
    handle_app_downloading_partition_status BulkLoadStatus.BLS_DOWNLOADING
      [100, 100] = BulkLoadStatus.BLS_DOWNLOADED := by
  refine ⟨(c1_download_gate_is_min [100, 60, 80] (by decide)
      (by decide)).2.1,
    (c1_download_gate_is_min [100, 60, 80] (by decide) (by decide)).2.2 60
      (by decide), ?_⟩
  exact (c1_download_gate_is_min [100, 100] (by decide) (by decide)).1.mpr
    (by decide)

/-- Events that drive an app-level status transition: aggregation outcomes,
partition failure, the error-triggered rollback (`try_rollback_to_downloading`)
and the pause/restart/cancel control actions. -/
inductive AppEvent where
  | finish_download
  | begin_ingest
  | finish_ingest
  | fail
  | rollback
  | pause
  | pause_ack
  | restart
  | cancel
  deriving DecidableEq, Repr

/-- Modelled from the spec: the app-level state machine driven by
`update_app_status_on_remote_storage_unlocked` and its callers, whose bodies
are not among the sources.  The transitions follow the spec's app-level state
machine together with the error-triggered rollback documented by the header's
process diagram and `try_rollback_to_downloading`. -/
inductive AppTransition : BulkLoadStatus → AppEvent → BulkLoadStatus → Prop
  | download_done : AppTransition BulkLoadStatus.BLS_DOWNLOADING
      AppEvent.finish_download BulkLoadStatus.BLS_DOWNLOADED
  | ingest_started : AppTransition BulkLoadStatus.BLS_DOWNLOADED
      AppEvent.begin_ingest BulkLoadStatus.BLS_INGESTING
  | ingest_done : AppTransition BulkLoadStatus.BLS_INGESTING
      AppEvent.finish_ingest BulkLoadStatus.BLS_SUCCEED
  | fail_downloading : AppTransition BulkLoadStatus.BLS_DOWNLOADING
      AppEvent.fail BulkLoadStatus.BLS_FAILED
  | fail_downloaded : AppTransition BulkLoadStatus.BLS_DOWNLOADED
      AppEvent.fail BulkLoadStatus.BLS_FAILED
  | fail_ingesting : AppTransition BulkLoadStatus.BLS_INGESTING
      AppEvent.fail BulkLoadStatus.BLS_FAILED
  | rollback_downloading : AppTransition BulkLoadStatus.BLS_DOWNLOADING
      AppEvent.rollback BulkLoadStatus.BLS_DOWNLOADING
  | rollback_downloaded : AppTransition BulkLoadStatus.BLS_DOWNLOADED
      AppEvent.rollback BulkLoadStatus.BLS_DOWNLOADING
  | rollback_ingesting : AppTransition BulkLoadStatus.BLS_INGESTING
      AppEvent.rollback BulkLoadStatus.BLS_DOWNLOADING
  | pause_downloading : AppTransition BulkLoadStatus.BLS_DOWNLOADING
      AppEvent.pause BulkLoadStatus.BLS_PAUSING
  | pause_downloaded : AppTransition BulkLoadStatus.BLS_DOWNLOADED
      AppEvent.pause BulkLoadStatus.BLS_PAUSING
  | pause_ingesting : AppTransition BulkLoadStatus.BLS_INGESTING
      AppEvent.pause BulkLoadStatus.BLS_PAUSING
  | pause_acked : AppTransition BulkLoadStatus.BLS_PAUSING
      AppEvent.pause_ack BulkLoadStatus.BLS_PAUSED
  | restarted : AppTransition BulkLoadStatus.BLS_PAUSED
      AppEvent.restart BulkLoadStatus.BLS_DOWNLOADING
  | cancel_downloading : AppTransition BulkLoadStatus.BLS_DOWNLOADING
      AppEvent.cancel BulkLoadStatus.BLS_CANCELED
  | cancel_downloaded : AppTransition BulkLoadStatus.BLS_DOWNLOADED
      AppEvent.cancel BulkLoadStatus.BLS_CANCELED
  | cancel_ingesting : AppTransition BulkLoadStatus.BLS_INGESTING
      AppEvent.cancel BulkLoadStatus.BLS_CANCELED
  | cancel_pausing : AppTransition BulkLoadStatus.BLS_PAUSING
      AppEvent.cancel BulkLoadStatus.BLS_CANCELED
  | cancel_paused : AppTransition BulkLoadStatus.BLS_PAUSED
      AppEvent.cancel BulkLoadStatus.BLS_CANCELED

/-- The pause/restart/cancel control actions of `on_control_bulk_load`
(pause acknowledgement completes the pause action). -/
def is_control_event : AppEvent → Bool
  | AppEvent.pause => true
  | AppEvent.pause_ack => true
  | AppEvent.restart => true
  | AppEvent.cancel => true
  | _ => false

/-- Membership in the forward chain downloading → downloaded → ingesting →
succeed. -/
def on_status_chain : BulkLoadStatus → Bool
  | BulkLoadStatus.BLS_DOWNLOADING => true
  | BulkLoadStatus.BLS_DOWNLOADED => true
  | BulkLoadStatus.BLS_INGESTING => true
  | BulkLoadStatus.BLS_SUCCEED => true
  | _ => false

/-- Position along the forward chain. -/
def status_chain_pos : BulkLoadStatus → Nat
  | BulkLoadStatus.BLS_DOWNLOADED => 1
  | BulkLoadStatus.BLS_INGESTING => 2
  | BulkLoadStatus.BLS_SUCCEED => 3
  | _ => 0

/-- Claim C2 counterexample: the error-triggered rollback moves the app
status from `downloaded` back to `downloading` although rollback is not one
of the pause/restart/cancel control actions, so a regression outside those
actions is possible. -/
theorem c2_rollback_regression_counterexample :
    AppTransition BulkLoadStatus.BLS_DOWNLOADED AppEvent.rollback
        BulkLoadStatus.BLS_DOWNLOADING ∧
    is_control_event AppEvent.rollback = false ∧
    status_chain_pos BulkLoadStatus.BLS_DOWNLOADING <
      status_chain_pos BulkLoadStatus.BLS_DOWNLOADED := by
  exact ⟨AppTransition.rollback_downloaded, rfl, by decide⟩

/-- Claim C2 (amended): an app's status only advances along downloading →
downloaded → ingesting → succeed; the only transitions that move the status
backwards or off this chain are the pause/restart/cancel control actions,
the escalation to `failed`, and the error-triggered rollback to
`downloading`. -/
theorem c2_status_monotonic_except_controls
    (s : BulkLoadStatus) (e : AppEvent) (t : BulkLoadStatus)
    (h : AppTransition s e t)
    (hc : is_control_event e = false)
    (hr : e ≠ AppEvent.rollback)
    (hf : e ≠ AppEvent.fail) :
    on_status_chain s = true ∧ on_status_chain t = true ∧
      status_chain_pos s < status_chain_pos t := by
  cases h <;>
    first
      | exact absurd hc (by decide)
      | exact absurd rfl hr
      | exact absurd rfl hf
      | decide

theorem c2_status_monotonic_except_controls_witness :
    on_status_chain BulkLoadStatus.BLS_DOWNLOADING = true ∧
    on_status_chain BulkLoadStatus.BLS_DOWNLOADED = true ∧
    status_chain_pos BulkLoadStatus.BLS_DOWNLOADING <
      status_chain_pos BulkLoadStatus.BLS_DOWNLOADED := by
  exact c2_status_monotonic_except_controls BulkLoadStatus.BLS_DOWNLOADING
    AppEvent.finish_download BulkLoadStatus.BLS_DOWNLOADED
    AppTransition.download_done rfl (by decide) (by decide)

/-- The error codes documented for `check_bulk_load_request_params`
(header lines 94-100). -/
inductive ErrorCode where
  | ERR_OK
  | ERR_INVALID_PARAMETERS
  | ERR_FILE_OPERATION_FAILED
  | ERR_OBJECT_NOT_FOUND
  | ERR_CORRUPTION
  | ERR_INCONSISTENT_STATE
  deriving DecidableEq, Repr

/-- Observable behaviour of the remote file provider during start-request
validation: whether the requested provider type is recognized, whether the
provider can be reached, whether `bulk_load_info` exists there, whether it
parses, and its parsed content. -/
structure FileProviderEnv where
  valid_provider_type : Bool
  provider_reachable : Bool
  info_present : Bool
  info_well_formed : Bool
  info : BulkLoadInfo
  deriving DecidableEq, Repr

/-- Modelled from the spec: the body of `check_bulk_load_request_params` is
not among the sources.  Per the header's documented error contract and the
spec, validation checks the provider type, then reads `bulk_load_info` from
the provider (unreachable provider, absent file, malformed file), then
cross-checks `app_id` and `partition_count` against the app's. -/
def check_bulk_load_request_params (env : FileProviderEnv)
    (app_id partition_count : Int) : ErrorCode :=
  if env.valid_provider_type = false then ErrorCode.ERR_INVALID_PARAMETERS
  else if env.provider_reachable = false then ErrorCode.ERR_FILE_OPERATION_FAILED
  else if env.info_present = false then ErrorCode.ERR_OBJECT_NOT_FOUND
  else if env.info_well_formed = false then ErrorCode.ERR_CORRUPTION
  else if env.info.app_id ≠ app_id ∨ env.info.partition_count ≠ partition_count
    then ErrorCode.ERR_INCONSISTENT_STATE
  else ErrorCode.ERR_OK

/-- Claim C3 counterexample: when the provider type is bad and
`bulk_load_info` is also absent, validation fails with the parameter error,
not with object-not-found, so "fails with ObjectNotFound exactly when the
provider-side bulk_load_info is absent" does not hold as a plain
biconditional. -/
theorem c3_validation_not_plain_biconditional :
    ¬ (check_bulk_load_request_params
          ⟨false, true, false, true, ⟨1, "temp", 4⟩⟩ 1 4 =
        ErrorCode.ERR_OBJECT_NOT_FOUND ↔
      (⟨false, true, false, true, ⟨1, "temp", 4⟩⟩ :
          FileProviderEnv).info_present = false) := by
  decide

/-- Claim C3 (amended): validation checks provider type, provider
reachability, presence of `bulk_load_info`, its well-formedness and the
app_id/partition_count cross-check in that order; each error is returned
exactly when its condition fails and every earlier check passes, and
validation succeeds otherwise. -/
theorem c3_validation_error_contract (env : FileProviderEnv)
    (a pc : Int) :
    (check_bulk_load_request_params env a pc =
        ErrorCode.ERR_INVALID_PARAMETERS ↔ env.valid_provider_type = false) ∧
    (check_bulk_load_request_params env a pc =
        ErrorCode.ERR_FILE_OPERATION_FAILED ↔
      env.valid_provider_type = true ∧ env.provider_reachable = false) ∧
    (check_bulk_load_request_params env a pc =
        ErrorCode.ERR_OBJECT_NOT_FOUND ↔
      env.valid_provider_type = true ∧ env.provider_reachable = true ∧
        env.info_present = false) ∧
    (check_bulk_load_request_params env a pc = ErrorCode.ERR_CORRUPTION ↔
      env.valid_provider_type = true ∧ env.provider_reachable = true ∧
        env.info_present = true ∧ env.info_well_formed = false) ∧
    (check_bulk_load_request_params env a pc =
        ErrorCode.ERR_INCONSISTENT_STATE ↔
      env.valid_provider_type = true ∧ env.provider_reachable = true ∧
        env.info_present = true ∧ env.info_well_formed = true ∧
        (env.info.app_id ≠ a ∨ env.info.partition_count ≠ pc)) ∧
    (check_bulk_load_request_params env a pc = ErrorCode.ERR_OK ↔
      env.valid_provider_type = true ∧ env.provider_reachable = true ∧
        env.info_present = true ∧ env.info_well_formed = true ∧
        env.info.app_id = a ∧ env.info.partition_count = pc) := by
  obtain ⟨vt, pr, ip, wf, info⟩ := env
  cases vt <;> cases pr <;> cases ip <;> cases wf <;>
    by_cases h1 : info.app_id = a <;>
    by_cases h2 : info.partition_count = pc <;>
    simp_all [check_bulk_load_request_params]

/-- Modelled from the spec: the body of `try_resend_bulk_load_request` is not
among the sources.  Per the header comment, if the app is still in bulk load
the request is resent to the primary after `interval` seconds; otherwise no
resend is scheduled. -/
def try_resend_bulk_load_request (app_tracked : Bool) (interval : Nat) :
    Option Nat :=
  if app_tracked then some interval else none

/-- The environment seen by one partition's driver across resend attempts:
whether the app/partition record is still present at the meta server before
attempt n, and whether the RPC of attempt n failed or timed out. -/
structure ResendEnv where
  app_tracked : Nat → Bool
  rpc_failed : Nat → Bool

/-- Whether the driver still performs attempt n: the initial request is always
sent, and after a failed attempt the next one happens exactly when
`try_resend_bulk_load_request` schedules a resend. -/
def resend_active (env : ResendEnv) (interval : Nat) : Nat → Bool
  | 0 => true
  | n + 1 =>
      resend_active env interval n && env.rpc_failed n &&
        (try_resend_bulk_load_request (env.app_tracked n) interval).isSome

/-- Claim C4: after an RPC failure a resend is scheduled after the fixed
interval; while the app stays in the in-progress set resends continue
indefinitely, and the retry loop stops exactly when the app/partition record
is absent at the meta server. -/
theorem c4_resend_until_untracked (env : ResendEnv) (interval n : Nat)
    (hfail : ∀ m, env.rpc_failed m = true)
    (htracked : ∀ m, env.app_tracked m = true) :
    resend_active env interval n = true ∧
    (∀ b, try_resend_bulk_load_request b interval = some interval ↔ b = true) ∧
    (∀ b, try_resend_bulk_load_request b interval = none ↔ b = false) := by
  refine ⟨?_, ?_, ?_⟩
  · induction n with
    | zero => rfl
    | succ m ih =>
      rw [resend_active, ih, hfail m, htracked m]
      rfl
  · intro b
    cases b <;> simp [try_resend_bulk_load_request]
  · intro b
    cases b <;> simp [try_resend_bulk_load_request]

theorem c4_resend_until_untracked_witness :
    resend_active ⟨fun _ => true, fun _ => true⟩ 10 5 = true ∧
    try_resend_bulk_load_request false 10 = none := by
  refine ⟨(c4_resend_until_untracked ⟨fun _ => true, fun _ => true⟩ 10 5
    (fun _ => rfl) (fun _ => rfl)).1, ?_⟩
  exact ((c4_resend_until_untracked ⟨fun _ => true, fun _ => true⟩ 10 5
    (fun _ => rfl) (fun _ => rfl)).2.2 false).mpr rfl

/-- Character-level test that the first list is an initial segment of the
second. -/
def starts_with_chars : List Char → List Char → Bool
  | [], _ => true
  | _ :: _, [] => false
  | a :: as, b :: bs => a == b && starts_with_chars as bs

/-- Whether path p is the app's record path or lies underneath it. -/
def under_app_path (app_path p : String) : Bool :=
  p == app_path || starts_with_chars (app_path ++ "/").data p.data

/-- The durable and in-memory state touched by bulk-load cleanup: the set of
paths present on the coordination store, the in-progress id set
(`_bulk_load_app_id`) and the set of apps whose `is_bulk_loading` flag is
set. -/
structure MetaBulkLoadState where
  store_paths : List String
  bulk_load_app_id : List Int
  apps_is_bulk_loading : List Int

/-- The terminal app statuses (header comment, lines 126-127). -/
def is_terminal_status (st : BulkLoadStatus) : Bool :=
  st == BulkLoadStatus.BLS_SUCCEED || st == BulkLoadStatus.BLS_FAILED ||
    st == BulkLoadStatus.BLS_CANCELED

/-- Modelled from the spec: the bodies of `handle_bulk_load_finish`,
`remove_bulk_load_dir_on_remote_storage`, `reset_local_bulk_load_states` and
`update_app_not_bulk_loading_on_remote_storage` are not among the sources.
Per the spec, entering a terminal status triggers cleanup: the app's
coordination-store subtree is deleted, the app id leaves the in-progress set
and the app's is-bulk-loading flag is cleared. -/
def handle_app_terminal_status (root : String) (s : MetaBulkLoadState)
    (app : Int) (new_status : BulkLoadStatus) : MetaBulkLoadState :=
  if is_terminal_status new_status then
    { store_paths := s.store_paths.filter
        (fun p => !(under_app_path (get_app_bulk_load_path root app) p)),
      bulk_load_app_id := s.bulk_load_app_id.filter (fun a => a != app),
      apps_is_bulk_loading := s.apps_is_bulk_loading.filter
        (fun a => a != app) }
  else s

/-- Claim C5: whenever the app status enters a terminal status, cleanup runs:
no path of the app's coordination-store subtree survives, the app id is
removed from the in-progress set, and the app's is-bulk-loading flag is
cleared. -/
theorem c5_terminal_status_cleanup (root : String) (s : MetaBulkLoadState)
    (app : Int) (st : BulkLoadStatus) (hterm : is_terminal_status st = true) :
    (∀ p ∈ (handle_app_terminal_status root s app st).store_paths,
      under_app_path (get_app_bulk_load_path root app) p = false) ∧
    app ∉ (handle_app_terminal_status root s app st).bulk_load_app_id ∧
    app ∉ (handle_app_terminal_status root s app st).apps_is_bulk_loading := by
  rw [handle_app_terminal_status, if_pos hterm]
  refine ⟨?_, ?_, ?_⟩
  · intro p hp
    have := (List.mem_filter.mp hp).2
    simpa using this
  · intro hmem
    have := (List.mem_filter.mp hmem).2
    simp at this
  · intro hmem
    have := (List.mem_filter.mp hmem).2
    simp at this

theorem c5_terminal_status_cleanup_witness :
    under_app_path (get_app_bulk_load_path "/c/bulk_load" 1)
        "/c/bulk_load/2" = false ∧
    (1 : Int) ∉ (handle_app_terminal_status "/c/bulk_load"
        ⟨["/c/bulk_load/1", "/c/bulk_load/1/0", "/c/bulk_load/2"],
          [1, 2], [1, 2]⟩ 1
        BulkLoadStatus.BLS_SUCCEED).bulk_load_app_id := by
  have h := c5_terminal_status_cleanup "/c/bulk_load"
    ⟨["/c/bulk_load/1", "/c/bulk_load/1/0", "/c/bulk_load/2"],
      [1, 2], [1, 2]⟩ 1
    BulkLoadStatus.BLS_SUCCEED rfl
  refine ⟨h.1 "/c/bulk_load/2" ?_, h.2.1⟩
  decide

/-- The synchronization state kept for one family of records
(`_apps_pending_sync_flag` / `_partitions_pending_sync_flag`): the per-entity
pending-write flag together with the number of coordination-store writes
currently in flight for each entity. -/
structure SyncState (κ : Type) where
  pending_sync_flag : κ → Bool
  outstanding_writes : κ → Nat

/-- Before any write is issued no flag is set and nothing is in flight. -/
def sync_init (κ : Type) : SyncState κ :=
  { pending_sync_flag := fun _ => false, outstanding_writes := fun _ => 0 }

/-- The two events touching the pending-write discipline of an entity: an
operation wanting to persist a status change for it, and the coordination
store delivering the reply of an issued write. -/
inductive SyncEvent (κ : Type) where
  | try_write (k : κ)
  | write_reply (k : κ)

/-- Modelled from the spec: the bodies that manipulate
`_apps_pending_sync_flag` and `_partitions_pending_sync_flag` are not among
the sources.  Per the spec, an operation that persists a status change first
checks the entity's pending-write flag and issues no write while it is set;
otherwise it sets the flag and issues the write; processing the write's reply
clears the flag. -/
def sync_step {κ : Type} [DecidableEq κ] (s : SyncState κ) :
    SyncEvent κ → SyncState κ
  | SyncEvent.try_write k =>
      if s.pending_sync_flag k then s
      else
        { pending_sync_flag := fun j => if j = k then true
            else s.pending_sync_flag j,
          outstanding_writes := fun j => if j = k then
            s.outstanding_writes j + 1 else s.outstanding_writes j }
  | SyncEvent.write_reply k =>
      if s.outstanding_writes k = 0 then s
      else
        { pending_sync_flag := fun j => if j = k then false
            else s.pending_sync_flag j,
          outstanding_writes := fun j => if j = k then
            s.outstanding_writes j - 1 else s.outstanding_writes j }

/-- Run a sequence of events from the initial synchronization state. -/
def sync_run {κ : Type} [DecidableEq κ] (evs : List (SyncEvent κ)) :
    SyncState κ :=
  evs.foldl sync_step (sync_init κ)

/-- The inductive invariant: an entity has a write in flight exactly when its
pending-write flag is set, hence never more than one. -/
def sync_consistent {κ : Type} (s : SyncState κ) : Prop :=
  ∀ k, s.outstanding_writes k = if s.pending_sync_flag k then 1 else 0

theorem sync_step_consistent {κ : Type} [DecidableEq κ] {s : SyncState κ}
    (hs : sync_consistent s) (e : SyncEvent κ) :
    sync_consistent (sync_step s e) := by
  cases e with
  | try_write k =>
    rw [sync_step]
    by_cases hflag : s.pending_sync_flag k
    · rw [if_pos hflag]
      exact hs
    · rw [if_neg hflag]
      intro j
      by_cases hj : j = k
      · simp only [hj, if_pos rfl]
        have := hs k
        rw [if_neg hflag] at this
        rw [this]
        simp
      · simp only [if_neg hj]
        exact hs j
  | write_reply k =>
    rw [sync_step]
    by_cases hzero : s.outstanding_writes k = 0
    · rw [if_pos hzero]
      exact hs
    · rw [if_neg hzero]
      intro j
      by_cases hj : j = k
      · simp only [hj, if_pos rfl]
        have := hs k
        by_cases hflag : s.pending_sync_flag k
        · rw [if_pos hflag] at this
          rw [this]
          simp
        · rw [if_neg hflag] at this
          exact absurd this hzero
      · simp only [if_neg hj]
        exact hs j

theorem sync_run_consistent {κ : Type} [DecidableEq κ]
    (evs : List (SyncEvent κ)) : sync_consistent (sync_run evs) := by
  rw [sync_run]
  have hinit : sync_consistent (sync_init κ) := fun _ => rfl
  generalize sync_init κ = s at hinit ⊢
  induction evs generalizing s with
  | nil => exact hinit
  | cons e rest ih =>
    rw [List.foldl_cons]
    exact ih _ (sync_step_consistent hinit e)

/-- Claim C6: at most one coordination-store write per record is outstanding
at any time; a persist operation finding the entity's pending-write flag set
issues no second write, and processing a write's reply clears the flag. -/
theorem c6_pending_write_discipline {κ : Type} [DecidableEq κ]
    (evs : List (SyncEvent κ)) (k : κ) :
    (sync_run evs).outstanding_writes k ≤ 1 ∧
    ((sync_run evs).pending_sync_flag k = true ↔
      (sync_run evs).outstanding_writes k = 1) ∧
    (∀ s : SyncState κ, s.pending_sync_flag k = true →
      sync_step s (SyncEvent.try_write k) = s) ∧
    (∀ s : SyncState κ, s.outstanding_writes k ≠ 0 →
      (sync_step s (SyncEvent.write_reply k)).pending_sync_flag k = false) := by
  have hcons := sync_run_consistent evs k
  refine ⟨?_, ?_, ?_, ?_⟩
  · rw [hcons]
    by_cases hflag : (sync_run evs).pending_sync_flag k
    · rw [if_pos hflag]
    · rw [if_neg hflag]
      exact Nat.zero_le 1
  · constructor
    · intro hflag
      rw [hcons, if_pos hflag]
    · intro hone
      by_cases hflag : (sync_run evs).pending_sync_flag k
      · exact hflag
      · rw [hcons, if_neg hflag] at hone
        exact absurd hone.symm one_ne_zero
  · intro s hflag
    rw [sync_step, if_pos hflag]
  · intro s hnz
    rw [sync_step, if_neg hnz]
    simp

theorem c6_pending_write_discipline_witness :
    (sync_run [SyncEvent.try_write (1 : Int), SyncEvent.try_write 1,
        SyncEvent.write_reply 1]).outstanding_writes 1 ≤ 1 ∧
    sync_step (SyncState.mk (fun _ => true) (fun _ => 1))
        (SyncEvent.try_write (1 : Int)) =
      SyncState.mk (fun _ => true) (fun _ => 1) := by
  refine ⟨(c6_pending_write_discipline [SyncEvent.try_write (1 : Int),
    SyncEvent.try_write 1, SyncEvent.write_reply 1] 1).1, ?_⟩
  exact (c6_pending_write_discipline ([] : List (SyncEvent Int)) 1).2.2.1
    (SyncState.mk (fun _ => true) (fun _ => 1)) rfl

end RDSN
